import Mathlib

/-!
Verification of the Networking Copilot frontend client against its
specification.  The definitions below are shallow embeddings of the
TypeScript sources: `frontend/src/types.ts`, `frontend/src/lib/api.ts`,
`frontend/src/app/(chat)/page.tsx`, the users detail page, the sidebar,
and the capture-button component (current and legacy revisions).
-/

namespace NetworkingCopilot

/-- JavaScript string `a || b`: the empty string is falsy. -/
def jsOr (a b : String) : String := if a = "" then b else a

/-! ## Data model, from `frontend/src/types.ts` -/

/-- `AnalyzerOutput` from `types.ts`: optional header fields plus highlights. -/
structure AnalyzerOutput where
  profile_name : Option String
  headline : Option String
  current_title : Option String
  current_company : Option String
  location : Option String
  highlights : List String
deriving DecidableEq

/-- `SummaryOutput` from `types.ts`. -/
structure SummaryOutput where
  summary : String
  key_highlights : List String
deriving DecidableEq

/-- `IcebreakerItem` from `types.ts`: `category` is a plain string there. -/
structure IcebreakerItem where
  category : String
  prompt : String
deriving DecidableEq

/-- The `icebreaker_generator_task` payload of `CrewOutputs` in `types.ts`. -/
structure IcebreakerSet where
  icebreakers : List IcebreakerItem
deriving DecidableEq

/-- `CrewOutputs` from `types.ts`. -/
structure CrewOutputs where
  linkedin_profile_analyzer_task : AnalyzerOutput
  summary_generator_task : SummaryOutput
  icebreaker_generator_task : IcebreakerSet
deriving DecidableEq

/-- `ExtractedLinks` from `types.ts`. -/
structure ExtractedLinks where
  linkedin : Option String
  github : Option String
  website : Option String
  email : Option String
  phone : Option String
deriving DecidableEq

/-- `ExtractedBasicInfo` from `types.ts`. -/
structure ExtractedBasicInfo where
  names : Option String
  company : Option String
deriving DecidableEq

/-- `ExtractedData` from `types.ts`. -/
structure ExtractedData where
  basic_info : Option ExtractedBasicInfo
  links : Option ExtractedLinks
  image : Option String
deriving DecidableEq

/-- The inline `person` record of `PersonDetail` in `types.ts`. -/
structure PersonInfo where
  url : Option String
  name : String
  subtitle : Option String
  location : Option String
  experience : Option String
  education : Option String
  avatar : Option String
deriving DecidableEq

/-- `PersonDetail` from `types.ts`: one stored enrichment record. -/
structure PersonDetail where
  id : String
  created_at : Option String
  filename : Option String
  extracted : Option ExtractedData
  person : PersonInfo
  selector_rationale : Option String
  crew_outputs : CrewOutputs
deriving DecidableEq

/-- `PersonListItem` from `types.ts`: a sidebar list entry. -/
structure PersonListItem where
  id : String
  name : String
  subtitle : Option String
  location : Option String
  avatar : Option String
  created_at : Option String
deriving DecidableEq

/-! ## HTTP client, from `frontend/src/lib/api.ts` -/

/-- A received HTTP response, as the client observes it: the `ok` flag, the
JSON-parsed `body` (meaningful when the request is handled as a success),
the raw body `text`, the `detail` field of the body parsed as error JSON
(`none` when that parse fails, `some none` when the field is absent), and
the HTTP `statusText`. -/
structure ApiResponse (α : Type) where
  ok : Bool
  body : α
  text : String
  errorJson : Option (Option String)
  statusText : String

/-- `handleResponse` from `lib/api.ts`: a non-ok response throws an `Error`
carrying the body text, falling back to the status text when the body is
empty; an ok response yields the parsed body. -/
def handleResponse {α : Type} (r : ApiResponse α) : Except String α :=
  if r.ok then Except.ok r.body
  else Except.error (jsOr r.text r.statusText)

/-- `fetchPerson` from `lib/api.ts`, applied to the response it received. -/
def fetchPerson (r : ApiResponse PersonDetail) : Except String PersonDetail :=
  handleResponse r

/-- The parsed body of `GET /people`: the `people` field may be absent. -/
structure PeopleBody where
  people : Option (List PersonListItem)

/-- The query string built by `fetchPeople` in `lib/api.ts`:
`url.searchParams.set("limit", String(limit))`. -/
def fetchPeopleQuery (limit : Nat) : List (String × String) :=
  [("limit", toString limit)]

/-- The query string for a `fetchPeople()` call that omits the argument:
the declared default is `limit = 50`. -/
def fetchPeopleQueryDefault : List (String × String) :=
  fetchPeopleQuery 50

/-- `fetchPeople` from `lib/api.ts`, applied to the response it received:
`return data.people ?? []`. -/
def fetchPeople (r : ApiResponse PeopleBody) : Except String (List PersonListItem) :=
  match handleResponse r with
  | Except.ok data => Except.ok (data.people.getD [])
  | Except.error e => Except.error e

/-- The JSON body posted by `searchProfiles` in `lib/api.ts`:
`{first_name, last_name, additional_context}` serialized by
`JSON.stringify`, which drops a field whose value is `undefined`. -/
def searchPayload (firstName lastName : String) (additionalContext : Option String) :
    List (String × String) :=
  [("first_name", firstName), ("last_name", lastName)] ++
    (match additionalContext with
      | some c => [("additional_context", c)]
      | none => [])

/-- The response handling of `searchProfiles` in `lib/api.ts`: an ok
response returns the parsed body; otherwise the error detail (with the
`catch` fallback `"Unknown error"`, and `errorData.detail || statusText`)
is thrown inside a `Search failed:` message. -/
def searchProfilesRun {α : Type} (r : ApiResponse α) : Except String α :=
  if r.ok then Except.ok r.body
  else
    Except.error ("Search failed: " ++
      (match r.errorJson with
        | none => "Unknown error"
        | some none => r.statusText
        | some (some d) => jsOr d r.statusText))

/-! ## Person detail page, from the users detail page component -/

/-- The rendering outcome of the person detail page. -/
inductive PageResult where
  | render (detail : PersonDetail)
  | notFound
deriving DecidableEq

/-- `PersonPage`: `fetchPerson` inside `try`, any failure is caught and
routed to `notFound()`. -/
def personPage (r : ApiResponse PersonDetail) : PageResult :=
  match fetchPerson r with
  | Except.ok detail => PageResult.render detail
  | Except.error _ => PageResult.notFound

/-! ## Chat page, from `frontend/src/app/(chat)/page.tsx` -/

/-- The `sender` field of a chat message. -/
inductive Sender where
  | user
  | assistant
  | system
deriving DecidableEq

/-- `ChatMessage` from `types.ts`. -/
structure ChatMessage where
  id : String
  sender : Sender
  text : String
  ts : Nat
deriving DecidableEq

/-- The constant assistant reply of the mock chat page. -/
def mockAssistantText : String := "(mock) I would answer using scanned data."

/-- `handleSendMessage` from the chat page: appends a user message built
from the input and the constant mock assistant reply, with ids and
timestamps derived from `Date.now()` (passed here as `now`, in ms). -/
def handleSendMessage (now : Nat) (text : String) (prev : List ChatMessage) :
    List ChatMessage :=
  let userMessage : ChatMessage :=
    { id := "m_" ++ toString now, sender := Sender.user, text := text, ts := now / 1000 }
  let assistantMessage : ChatMessage :=
    { id := "m_" ++ toString (now + 1), sender := Sender.assistant,
      text := mockAssistantText, ts := now / 1000 + 1 }
  prev ++ [userMessage, assistantMessage]

/-- `mapDetailToListItem` from the chat page:
`subtitle: record.person.subtitle ?? record.person.experience ?? undefined`. -/
def mapDetailToListItem (record : PersonDetail) : PersonListItem :=
  { id := record.id
    name := record.person.name
    subtitle := record.person.subtitle.or record.person.experience
    location := record.person.location
    avatar := record.person.avatar
    created_at := record.created_at }

/-- `handleCapture` from the chat page: drop any previous entry with the
captured record's id, then prepend the mapped record. -/
def handleCapture (record : PersonDetail) (prev : List PersonListItem) :
    List PersonListItem :=
  mapDetailToListItem record :: prev.filter (fun p => p.id != record.id)

/-! ## Sidebar search filter, from the sidebar component -/

/-- Model of JavaScript `String.prototype.toLowerCase` (ASCII letters). -/
def jsToLower (s : String) : String := String.mk (s.data.map Char.toLower)

/-- Model of JavaScript `hay.includes(needle)`: contiguous substring. -/
def jsIncludes (hay needle : String) : Bool := decide (needle.data <:+: hay.data)

/-- The sidebar's `people.filter(...)`: keep a person when the lowercased
search string occurs in the lowercased name, subtitle (`?? ''`) or
location (`?? ''`). -/
def sidebarFilter (search : String) (people : List PersonListItem) :
    List PersonListItem :=
  people.filter (fun person =>
    jsIncludes (jsToLower person.name) (jsToLower search) ||
    jsIncludes (jsToLower (person.subtitle.getD "")) (jsToLower search) ||
    jsIncludes (jsToLower (person.location.getD "")) (jsToLower search))

/-! ## Capture button, current revision (`isUploading` guard) -/

/-- Observable outcome of one `handleImageCapture` invocation: whether the
upload request was issued, the record handed to `onCapture` (if any), the
alert raised (if any), the modal-open flag after the call, and the
`isUploading` flag after the call. -/
structure CaptureOutcome where
  requestIssued : Bool
  captured : Option PersonDetail
  alertMsg : Option String
  modalOpen : Bool
  isUploading : Bool
deriving DecidableEq

/-- The alert text of the current capture handler's failure path. -/
def captureFailureAlert : String := "Failed to process the image. Please try again."

/-- `handleImageCapture` of the current `CaptureButton`: an invocation
while `isUploading` returns at once without a request; otherwise the
upload result (`upload`) either is handed to `onCapture` and closes the
modal, or raises one alert; the flag is cleared on both paths. -/
def handleImageCapture (isUploading : Bool) (modalOpen : Bool)
    (upload : Except String PersonDetail) : CaptureOutcome :=
  if isUploading then
    { requestIssued := false, captured := none, alertMsg := none,
      modalOpen := modalOpen, isUploading := isUploading }
  else
    match upload with
    | Except.ok record =>
        { requestIssued := true, captured := some record, alertMsg := none,
          modalOpen := false, isUploading := false }
    | Except.error _ =>
        { requestIssued := true, captured := none,
          alertMsg := some captureFailureAlert,
          modalOpen := modalOpen, isUploading := false }

/-! ## Capture button, legacy revision (fallback mock contact)

The legacy `CaptureButton` uses the older client types of `lib/api.ts`
(`ProfileData`, a `CrewOutputs` with required string fields) and the
`Person` type with an `aiAnalysis` attachment. -/

/-- The icebreaker category union type of the older `lib/api.ts` client
and of `Person.aiAnalysis`. -/
inductive IcebreakerCategory where
  | professional
  | educational
  | industry
  | interest
  | personal
deriving DecidableEq

/-- An icebreaker entry of the older client types: category is drawn from
the closed union type. -/
structure LegacyIcebreakerItem where
  category : IcebreakerCategory
  prompt : String
deriving DecidableEq

/-- `ProfileData` from the older `lib/api.ts`. -/
structure ProfileData where
  url : String
  name : String
  subtitle : String
  location : String
  experience : String
  education : String
  avatar : String
deriving DecidableEq

/-- The `linkedin_profile_analyzer_task` record of the older client. -/
structure LegacyAnalyzerOutput where
  profile_name : String
  headline : String
  current_title : String
  current_company : String
  location : String
  highlights : List String
deriving DecidableEq

/-- The `summary_generator_task` record of the older client. -/
structure LegacySummaryOutput where
  summary : String
  key_highlights : List String
deriving DecidableEq

/-- `CrewOutputs` from the older `lib/api.ts`. -/
structure LegacyCrewOutputs where
  linkedin_profile_analyzer_task : LegacyAnalyzerOutput
  summary_generator_task : LegacySummaryOutput
  icebreakers : List LegacyIcebreakerItem
deriving DecidableEq

/-- `ExtractAndLookupResponse` from the older `lib/api.ts`. -/
structure ExtractAndLookupResponse where
  filename : String
  markdown : String
  person : ProfileData
  selector_rationale : String
  crew_outputs : LegacyCrewOutputs
deriving DecidableEq

/-- The `aiAnalysis` attachment of `Person`. -/
structure AiAnalysis where
  highlights : List String
  icebreakers : List LegacyIcebreakerItem
  selectorRationale : Option String
deriving DecidableEq

/-- `Person` from the legacy `types.ts`. -/
structure Person where
  id : String
  name : String
  role : String
  company : String
  email : String
  phone : String
  linkedin : String
  avatarUrl : Option String
  summary : String
  tags : List String
  aiAnalysis : Option AiAnalysis
deriving DecidableEq

/-- Observable outcome of the legacy `handleImageCapture`. -/
structure LegacyCaptureOutcome where
  captured : Option Person
  alertMsg : Option String
  isProcessing : Bool
deriving DecidableEq

/-- The contact built by the legacy handler's success path. -/
def legacyNewContact (now : Nat) (result : ExtractAndLookupResponse) : Person :=
  { id := "u_" ++ toString now
    name := jsOr result.person.name "Unknown Name"
    role := jsOr result.crew_outputs.linkedin_profile_analyzer_task.current_title "Unknown Role"
    company := jsOr result.crew_outputs.linkedin_profile_analyzer_task.current_company "Unknown Company"
    email := ""
    phone := ""
    linkedin := result.person.url
    avatarUrl := some result.person.avatar
    summary := jsOr result.crew_outputs.summary_generator_task.summary "No summary available"
    tags := ["Captured", "AI Analyzed"]
    aiAnalysis := some
      { highlights := result.crew_outputs.linkedin_profile_analyzer_task.highlights
        icebreakers := result.crew_outputs.icebreakers
        selectorRationale := some result.selector_rationale } }

/-- The fallback mock contact built by the legacy handler's catch block;
`rand` stands for `Math.floor(Math.random() * 1000)`. -/
def legacyMockContact (now rand : Nat) : Person :=
  { id := "u_" ++ toString now
    name := "Captured Contact #" ++ toString rand
    role := "Processing Failed"
    company := "Unknown Company"
    email := "unknown@example.com"
    phone := "+1 (555) 000-0000"
    linkedin := "linkedin.com/in/unknown"
    avatarUrl := none
    summary := "Failed to process image. Please try again."
    tags := ["Captured", "Error"]
    aiAnalysis := none }

/-- The legacy `handleImageCapture`: a successful upload hands the built
contact to `onCapture`; a failed upload builds a fallback mock contact,
hands it to `onCapture` too, and raises an alert; the processing flag is
cleared in `finally` on both paths. -/
def legacyHandleImageCapture (now rand : Nat)
    (upload : Except String ExtractAndLookupResponse) : LegacyCaptureOutcome :=
  match upload with
  | Except.ok result =>
      { captured := some (legacyNewContact now result), alertMsg := none,
        isProcessing := false }
  | Except.error e =>
      { captured := some (legacyMockContact now rand),
        alertMsg := some ("Failed to process image: " ++ e),
        isProcessing := false }

/-! ## Upload-in-flight state machine, from the current `CaptureButton`

The guard `if (isUploading) return`, the `setIsUploading(true)` before the
request, and the `finally { setIsUploading(false) }` after it settle,
induce the following transition system on the component's state. -/

/-- Component state: the `isUploading` flag and the number of upload
requests currently in flight. -/
structure UploaderState where
  isUploading : Bool
  inFlight : Nat
deriving DecidableEq

/-- One step of the capture component: an invocation while uploading
returns at once and changes nothing; an invocation while idle sets the
flag and issues one request; a settled request (success or failure alike)
runs the `finally` block and clears the flag. -/
inductive CaptureStep : UploaderState → UploaderState → Prop
  | invokeBusy (s : UploaderState) (h : s.isUploading = true) : CaptureStep s s
  | invokeIdle (s : UploaderState) (h : s.isUploading = false) :
      CaptureStep s { isUploading := true, inFlight := s.inFlight + 1 }
  | complete (s : UploaderState) (success : Bool) (h : 0 < s.inFlight) :
      CaptureStep s { isUploading := false, inFlight := s.inFlight - 1 }

/-- States reachable from the component's initial state (flag down, no
request in flight). -/
inductive CaptureReachable : UploaderState → Prop
  | init : CaptureReachable { isUploading := false, inFlight := 0 }
  | step {s t : UploaderState} (hs : CaptureReachable s) (st : CaptureStep s t) :
      CaptureReachable t

/-! ## Spec-modelled backend shape validation

The FastAPI backend (`networking.api`) that runs the three-stage
enrichment crew is not among the sources; only its docs and its frontend
callers are.  The definitions below are therefore modelled from the spec
rather than translated from code. -/

/-- The closed icebreaker category set, as spelled by the union type in
`lib/api.ts` and `Person.aiAnalysis`. -/
def icebreakerCategories : List String :=
  ["professional", "educational", "industry", "interest", "personal"]

/-- Modelled from the spec: the shape invariant of a successful Enrichment
Pipeline run — exactly 10 `highlights`, 2–3 `key_highlights`, 3–5
`icebreakers` with categories drawn from the closed set.  (The backend
service enforcing this is missing from the sources.) -/
def crewShapeOk (co : CrewOutputs) : Bool :=
  co.linkedin_profile_analyzer_task.highlights.length == 10 &&
  decide (2 ≤ co.summary_generator_task.key_highlights.length) &&
  decide (co.summary_generator_task.key_highlights.length ≤ 3) &&
  decide (3 ≤ co.icebreaker_generator_task.icebreakers.length) &&
  decide (co.icebreaker_generator_task.icebreakers.length ≤ 5) &&
  co.icebreaker_generator_task.icebreakers.all
    (fun ib => icebreakerCategories.contains ib.category)

/-- The pipeline-level error vocabulary relevant here. -/
inductive PipelineError where
  | dataError (msg : String)
deriving DecidableEq

/-- Modelled from the spec: the Enrichment Pipeline delivers its outputs
unmodified when they pass the shape check and otherwise fails with
`DataError` — shape violations are never silently truncated or padded.
(The backend service enforcing this is missing from the sources.) -/
def enrichmentPipelineDeliver (co : CrewOutputs) : Except PipelineError CrewOutputs :=
  if crewShapeOk co then Except.ok co
  else Except.error (PipelineError.dataError "malformed stage output")

/-- Modelled from the spec: the HTTP response the backend serves for an
assembled record — `200`-class (`ok`) with the record as body on success,
`502`-class with a `detail` payload on a `DataError`.  (The backend
service is missing from the sources.) -/
def backendRespond (d : PersonDetail) : ApiResponse PersonDetail :=
  match enrichmentPipelineDeliver d.crew_outputs with
  | Except.ok _ =>
      { ok := true, body := d, text := "", errorJson := none, statusText := "OK" }
  | Except.error (PipelineError.dataError m) =>
      { ok := false, body := d, text := m, errorJson := some (some m),
        statusText := "Bad Gateway" }

/-- The end-to-end delivery at the client boundary: the backend's response
for an assembled record, fed through the client's `handleResponse` (as in
`uploadExtractAndLookup` and `fetchPerson`). -/
def clientDeliver (d : PersonDetail) : Except String PersonDetail :=
  handleResponse (backendRespond d)

/-! ## Sample data, used by witnesses -/

/-- A sample icebreaker list with three closed-set categories. -/
def sampleIcebreakers : List IcebreakerItem :=
  [ { category := "professional", prompt := "What drew you to your current role?" },
    { category := "educational", prompt := "How did your studies shape your path?" },
    { category := "industry", prompt := "Where do you see the field heading?" } ]

/-- A sample crew output satisfying the shape invariant. -/
def sampleCrew : CrewOutputs :=
  { linkedin_profile_analyzer_task :=
      { profile_name := some "Example Person", headline := some "PM at Example",
        current_title := some "Product Manager", current_company := some "Example",
        location := some "San Francisco Bay Area",
        highlights := ["h1", "h2", "h3", "h4", "h5", "h6", "h7", "h8", "h9", "h10"] }
    summary_generator_task :=
      { summary := "Two sentences. About the person.",
        key_highlights := ["h1", "h2"] }
    icebreaker_generator_task := { icebreakers := sampleIcebreakers } }

/-- A sample stored person record. -/
def sampleDetail : PersonDetail :=
  { id := "p_1", created_at := some "2024-01-01", filename := some "capture.jpg",
    extracted := none,
    person :=
      { url := some "https://www.linkedin.com/in/example", name := "Example Person",
        subtitle := some "Product Manager at Example", location := some "SF",
        experience := some "Example Corp", education := some "Example University",
        avatar := none }
    selector_rationale := some "best match", crew_outputs := sampleCrew }

/-- A sample ok response carrying `sampleDetail`. -/
def sampleOkResp : ApiResponse PersonDetail :=
  { ok := true, body := sampleDetail, text := "", errorJson := none, statusText := "OK" }

/-- A sample failed response, as served for an absent stored id. -/
def sampleErrResp : ApiResponse PersonDetail :=
  { ok := false, body := sampleDetail, text := "person not found",
    errorJson := some (some "person not found"), statusText := "Not Found" }

/-! ## Claims -/

/-- C4: `fetchPerson` returns the parsed `PersonDetail` exactly when the
response is ok, throws an `Error` carrying the body text (or the status
text when the body is empty) when it is not ok, and the person detail
page maps any such failure to the not-found rendering. -/
theorem fetchPerson_ok_and_notFound (r : ApiResponse PersonDetail) :
    (r.ok = true → fetchPerson r = Except.ok r.body) ∧
    (r.ok = false →
      fetchPerson r = Except.error (if r.text = "" then r.statusText else r.text)) ∧
    (r.ok = false → personPage r = PageResult.notFound) := by
  refine ⟨?_, ?_, ?_⟩ <;> intro h <;>
    simp [fetchPerson, personPage, handleResponse, jsOr, h]

/-- Witness for C4: the theorem applied to a concrete ok response and a
concrete not-found response. -/
theorem fetchPerson_ok_and_notFound_witness :
    fetchPerson sampleOkResp = Except.ok sampleDetail ∧
    personPage sampleErrResp = PageResult.notFound :=
  ⟨(fetchPerson_ok_and_notFound sampleOkResp).1 rfl,
   (fetchPerson_ok_and_notFound sampleErrResp).2.2 rfl⟩

/-- C5: the JSON body posted by `searchProfiles` has exactly the fields
`first_name`, `last_name` and (when supplied) `additional_context`, with
the given values; `site_override` is never sent; and a non-ok response
makes the call throw rather than return a value. -/
theorem searchProfiles_payload_and_throw {α : Type}
    (firstName lastName : String) (additionalContext : Option String)
    (r : ApiResponse α) :
    (searchPayload firstName lastName none).map Prod.fst =
      ["first_name", "last_name"] ∧
    (∀ c, (searchPayload firstName lastName (some c)).map Prod.fst =
      ["first_name", "last_name", "additional_context"]) ∧
    (searchPayload firstName lastName additionalContext).lookup "first_name" =
      some firstName ∧
    (searchPayload firstName lastName additionalContext).lookup "last_name" =
      some lastName ∧
    (searchPayload firstName lastName additionalContext).lookup "additional_context" =
      additionalContext ∧
    "site_override" ∉ (searchPayload firstName lastName additionalContext).map Prod.fst ∧
    (r.ok = false → ∀ v, searchProfilesRun r ≠ Except.ok v) ∧
    (r.ok = true → searchProfilesRun r = Except.ok r.body) := by
  refine ⟨?_, ?_, ?_, ?_, ?_, ?_, ?_, ?_⟩
  · simp [searchPayload]
  · intro c; simp [searchPayload]
  · cases additionalContext <;> simp [searchPayload, List.lookup]
  · cases additionalContext <;> simp [searchPayload, List.lookup]
  · cases additionalContext <;> simp [searchPayload, List.lookup]
  · cases additionalContext <;> simp [searchPayload]
  · intro h v; simp [searchProfilesRun, h]
  · intro h; simp [searchProfilesRun, h]

/-- Witness for C5: the theorem applied at concrete names, a concrete
context and a concrete failed response. -/
theorem searchProfiles_payload_and_throw_witness :
    (searchPayload "Tony" "Kipkemboi" (some "Tech PM")).lookup "additional_context" =
      some "Tech PM" ∧
    ∀ v : PersonDetail, searchProfilesRun sampleErrResp ≠ Except.ok v :=
  ⟨(searchProfiles_payload_and_throw "Tony" "Kipkemboi" (some "Tech PM")
      sampleErrResp).2.2.2.2.1,
   (searchProfiles_payload_and_throw "Tony" "Kipkemboi" (some "Tech PM")
      sampleErrResp).2.2.2.2.2.2.1 rfl⟩

/-- A sample ok response for the people list, with the `people` field
present. -/
def samplePeopleResp : ApiResponse PeopleBody :=
  { ok := true
    body := { people := some [ { id := "p_1", name := "Example Person",
                                 subtitle := some "PM", location := some "SF",
                                 avatar := none, created_at := none } ] }
    text := "", errorJson := none, statusText := "OK" }

/-- A sample ok response for the people list whose `people` field is
absent. -/
def samplePeopleRespNoField : ApiResponse PeopleBody :=
  { ok := true, body := { people := none }, text := "", errorJson := none,
    statusText := "OK" }

/-- C6: `fetchPeople(limit)` sends the decimal string of `limit` as the
`limit` query parameter, defaults to 50, and on an ok response returns the
`people` array — or the empty list when the field is absent — never a
null-like value. -/
theorem fetchPeople_limit_default_and_result (limit : Nat) (r : ApiResponse PeopleBody) :
    (fetchPeopleQuery limit).lookup "limit" = some (toString limit) ∧
    fetchPeopleQueryDefault = fetchPeopleQuery 50 ∧
    (r.ok = true → ∀ l, r.body.people = some l → fetchPeople r = Except.ok l) ∧
    (r.ok = true → r.body.people = none → fetchPeople r = Except.ok []) := by
  refine ⟨?_, rfl, ?_, ?_⟩
  · simp [fetchPeopleQuery, List.lookup]
  · intro h l hl; simp [fetchPeople, handleResponse, h, hl]
  · intro h hl; simp [fetchPeople, handleResponse, h, hl]

/-- Witness for C6: the theorem applied at `limit = 7`, a concrete
populated response and a concrete response without the `people` field. -/
theorem fetchPeople_limit_default_and_result_witness :
    (fetchPeopleQuery 7).lookup "limit" = some "7" ∧
    fetchPeople samplePeopleResp =
      Except.ok [ { id := "p_1", name := "Example Person", subtitle := some "PM",
                    location := some "SF", avatar := none, created_at := none } ] ∧
    fetchPeople samplePeopleRespNoField = Except.ok [] :=
  ⟨(fetchPeople_limit_default_and_result 7 samplePeopleResp).1,
   (fetchPeople_limit_default_and_result 7 samplePeopleResp).2.2.1 rfl _ rfl,
   (fetchPeople_limit_default_and_result 7 samplePeopleRespNoField).2.2.2 rfl rfl⟩

/-- C7: the mock chat page's `handleSendMessage` appends exactly two
messages — first a user message carrying the given text, then an
assistant message carrying the constant mock reply — and leaves all
previously present messages unchanged. -/
theorem handleSendMessage_appends_two (now : Nat) (text : String)
    (prev : List ChatMessage) :
    (handleSendMessage now text prev).length = prev.length + 2 ∧
    (handleSendMessage now text prev).take prev.length = prev ∧
    ((handleSendMessage now text prev).drop prev.length).map ChatMessage.sender =
      [Sender.user, Sender.assistant] ∧
    ((handleSendMessage now text prev).drop prev.length).map ChatMessage.text =
      [text, mockAssistantText] := by
  refine ⟨?_, ?_, ?_, ?_⟩ <;>
    simp [handleSendMessage, List.take_left, List.drop_left]

/-- Two distinct sidebar entries sharing the id `"a"`. -/
def dupEntryOne : PersonListItem :=
  { id := "a", name := "A One", subtitle := none, location := none,
    avatar := none, created_at := none }

/-- A second entry with the same id `"a"` but a different name. -/
def dupEntryTwo : PersonListItem :=
  { id := "a", name := "A Two", subtitle := none, location := none,
    avatar := none, created_at := none }

/-- C8 counterexample: on an input list that already holds two entries
with the same id (both `"a"`), a capture of an unrelated record (id
`"p_1"`) leaves both, so the claim that the displayed list never holds
two entries with the same id after a capture fails as stated. -/
theorem handleCapture_dup_counterexample :
    ¬ ((handleCapture sampleDetail [dupEntryOne, dupEntryTwo]).map
        PersonListItem.id).Nodup := by
  decide

/-- C8 (amended): for an input list with pairwise-distinct ids, the
captured record's list-item mapping lands at index 0, no other entry
carries its id, every differently-keyed entry survives unchanged in its
original relative order, and the resulting ids are again
pairwise-distinct. -/
theorem handleCapture_dedup (record : PersonDetail) (prev : List PersonListItem)
    (h : (prev.map PersonListItem.id).Nodup) :
    (handleCapture record prev).head? = some (mapDetailToListItem record) ∧
    (∀ p ∈ (handleCapture record prev).tail, p.id ≠ record.id) ∧
    List.Sublist (handleCapture record prev).tail prev ∧
    (∀ p ∈ prev, p.id ≠ record.id → p ∈ (handleCapture record prev).tail) ∧
    ((handleCapture record prev).map PersonListItem.id).Nodup := by
  have htail : (handleCapture record prev).tail =
      prev.filter (fun p => p.id != record.id) := rfl
  refine ⟨rfl, ?_, ?_, ?_, ?_⟩
  · intro p hp
    rw [htail] at hp
    have hpred := List.of_mem_filter hp
    simpa using hpred
  · rw [htail]; exact List.filter_sublist prev
  · intro p hp hne
    rw [htail]
    exact List.mem_filter.mpr ⟨hp, by simpa using hne⟩
  · have hmap : (handleCapture record prev).map PersonListItem.id =
        record.id ::
          (prev.filter (fun p => p.id != record.id)).map PersonListItem.id := rfl
    rw [hmap]
    refine List.nodup_cons.mpr ⟨?_, ?_⟩
    · intro hmem
      rcases List.mem_map.mp hmem with ⟨p, hp, hid⟩
      have hpred := List.of_mem_filter hp
      rw [hid] at hpred
      simp at hpred
    · exact h.sublist ((List.filter_sublist prev).map PersonListItem.id)

/-- Witness for C8: the amended theorem applied to a concrete record and
a concrete duplicate-free list. -/
theorem handleCapture_dedup_witness :
    ((handleCapture sampleDetail [dupEntryOne]).map PersonListItem.id).Nodup :=
  (handleCapture_dedup sampleDetail [dupEntryOne] (by decide)).2.2.2.2

/-- `Char.ofNat` evaluates to the given valid code point. -/
theorem char_toNat_ofNat {n : Nat} (h : n.isValidChar) :
    (Char.ofNat n).toNat = n := by
  rw [Char.ofNat, dif_pos h]
  rfl

/-- ASCII lowering is idempotent. -/
theorem char_toLower_idem (c : Char) : c.toLower.toLower = c.toLower := by
  simp only [Char.toLower]
  by_cases h : c.toNat ≥ 65 ∧ c.toNat ≤ 90
  · rw [if_pos h]
    have hv : (c.toNat + 32).isValidChar := Or.inl (by omega)
    have ht : (Char.ofNat (c.toNat + 32)).toNat = c.toNat + 32 := char_toNat_ofNat hv
    rw [if_neg]
    rw [ht]
    omega
  · rw [if_neg h, if_neg h]

/-- The modelled `toLowerCase` is idempotent. -/
theorem jsToLower_idem (s : String) : jsToLower (jsToLower s) = jsToLower s := by
  show String.mk ((s.data.map Char.toLower).map Char.toLower) =
    String.mk (s.data.map Char.toLower)
  rw [List.map_map]
  exact congrArg String.mk
    (List.map_congr_left fun c _ => char_toLower_idem c)

/-- Every string contains the empty string. -/
theorem jsIncludes_empty (s : String) : jsIncludes s "" = true := by
  simp [jsIncludes]

/-- C9: the sidebar's filtered list is a sublist of the input (retained
entries unchanged, in order, nothing fabricated); the empty search string
is the identity; and matching is case-insensitive — lowering the search
string first does not change the result. -/
theorem sidebarFilter_sublist_empty_caseless (search : String)
    (people : List PersonListItem) :
    List.Sublist (sidebarFilter search people) people ∧
    sidebarFilter "" people = people ∧
    sidebarFilter search people = sidebarFilter (jsToLower search) people := by
  refine ⟨List.filter_sublist people, ?_, ?_⟩
  · refine List.filter_eq_self.mpr fun person _ => ?_
    have hname : jsToLower "" = "" := rfl
    rw [hname, jsIncludes_empty]
    rfl
  · simp only [sidebarFilter, jsToLower_idem]

/-- C1 (spec-modelled backend): every enrichment result delivered as a
success at the client boundary carries exactly 10 analyzer highlights,
2–3 summary key highlights and 3–5 icebreakers, and is the pipeline's
output unmodified — a shape-violating result is turned into an error
before delivery, never truncated or padded. -/
theorem clientDeliver_shape (d r : PersonDetail)
    (h : clientDeliver d = Except.ok r) :
    r.crew_outputs.linkedin_profile_analyzer_task.highlights.length = 10 ∧
    2 ≤ r.crew_outputs.summary_generator_task.key_highlights.length ∧
    r.crew_outputs.summary_generator_task.key_highlights.length ≤ 3 ∧
    3 ≤ r.crew_outputs.icebreaker_generator_task.icebreakers.length ∧
    r.crew_outputs.icebreaker_generator_task.icebreakers.length ≤ 5 ∧
    r = d := by
  by_cases hs : crewShapeOk d.crew_outputs
  · have hd : enrichmentPipelineDeliver d.crew_outputs = Except.ok d.crew_outputs := by
      rw [enrichmentPipelineDeliver, if_pos hs]
    simp [clientDeliver, backendRespond, hd, handleResponse] at h
    subst h
    simp only [crewShapeOk, Bool.and_eq_true, decide_eq_true_eq, beq_iff_eq] at hs
    exact ⟨hs.1.1.1.1.1, hs.1.1.1.1.2, hs.1.1.1.2, hs.1.1.2, hs.1.2, rfl⟩
  · have hd : enrichmentPipelineDeliver d.crew_outputs =
        Except.error (PipelineError.dataError "malformed stage output") := by
      rw [enrichmentPipelineDeliver, if_neg hs]
    simp [clientDeliver, backendRespond, hd, handleResponse, jsOr] at h

/-- Witness for C1: the delivered sample record satisfies the counts. -/
theorem clientDeliver_shape_witness :
    sampleDetail.crew_outputs.linkedin_profile_analyzer_task.highlights.length = 10 ∧
    sampleDetail.crew_outputs.icebreaker_generator_task.icebreakers.length = 3 :=
  ⟨(clientDeliver_shape sampleDetail sampleDetail rfl).1, rfl⟩

/-- C2 (spec-modelled backend): every icebreaker in a delivered
enrichment result has a category drawn from the closed set
`{professional, educational, industry, interest, personal}`. -/
theorem clientDeliver_categories (d r : PersonDetail)
    (h : clientDeliver d = Except.ok r) :
    ∀ ib ∈ r.crew_outputs.icebreaker_generator_task.icebreakers,
      ib.category ∈ icebreakerCategories := by
  by_cases hs : crewShapeOk d.crew_outputs
  · have hd : enrichmentPipelineDeliver d.crew_outputs = Except.ok d.crew_outputs := by
      rw [enrichmentPipelineDeliver, if_pos hs]
    simp [clientDeliver, backendRespond, hd, handleResponse] at h
    subst h
    simp only [crewShapeOk, Bool.and_eq_true, List.all_eq_true] at hs
    intro ib hib
    have := hs.2 ib hib
    exact List.mem_of_elem_eq_true this
  · have hd : enrichmentPipelineDeliver d.crew_outputs =
        Except.error (PipelineError.dataError "malformed stage output") := by
      rw [enrichmentPipelineDeliver, if_neg hs]
    simp [clientDeliver, backendRespond, hd, handleResponse, jsOr] at h

/-- Witness for C2: the first sample icebreaker's category is in the
closed set. -/
theorem clientDeliver_categories_witness :
    ("professional" : String) ∈ icebreakerCategories :=
  clientDeliver_categories sampleDetail sampleDetail rfl
    { category := "professional", prompt := "What drew you to your current role?" }
    (by decide)

/-- C3 counterexample: the legacy capture handler (the revision that
calls `networkingAPI.extractAndLookup` with a mock fallback), invoked
with a failing upload, hands a fabricated substitute profile to
`onCapture` — so the claim is false for that handler as stated. -/
theorem legacyCapture_fabricates_counterexample :
    (legacyHandleImageCapture 0 0 (Except.error "network error")).captured ≠ none ∧
    (legacyHandleImageCapture 0 0 (Except.error "network error")).captured =
      some (legacyMockContact 0 0) := by
  exact ⟨by simp [legacyHandleImageCapture], rfl⟩

/-- C3 (amended): in the current `CaptureButton` revision (the
`isUploading`-guarded handler), a failing extract-and-lookup call
surfaces as a single error alert, no record is handed to `onCapture`,
and the flag is cleared; only the legacy revision fabricates a fallback
contact. -/
theorem handleImageCapture_error_no_record (modalOpen : Bool) (e : String) :
    (handleImageCapture false modalOpen (Except.error e)).captured = none ∧
    (handleImageCapture false modalOpen (Except.error e)).alertMsg =
      some captureFailureAlert ∧
    (handleImageCapture false modalOpen (Except.error e)).requestIssued = true ∧
    (handleImageCapture false modalOpen (Except.error e)).isUploading = false :=
  ⟨rfl, rfl, rfl, rfl⟩

/-- C10: in every reachable state of the capture component at most one
upload is in flight (the flag counts it exactly); while the flag is up an
invocation is a no-op step, and the pending upload's completion — success
or failure alike — steps to the idle state, so a later capture is always
possible. -/
theorem captureReachable_single_flight (s : UploaderState)
    (h : CaptureReachable s) :
    s.inFlight ≤ 1 ∧
    s.inFlight = (if s.isUploading then 1 else 0) ∧
    (s.isUploading = true → CaptureStep s s) ∧
    (s.isUploading = true →
      CaptureStep s { isUploading := false, inFlight := 0 }) := by
  have hinv : s.inFlight = (if s.isUploading then 1 else 0) := by
    induction h with
    | init => rfl
    | @step sPrev t hs st ih =>
        cases st with
        | invokeBusy hb => exact ih
        | invokeIdle hb =>
            rw [hb] at ih
            simp at ih
            simp [ih]
        | complete success hb =>
            cases hup : sPrev.isUploading with
            | false =>
                rw [hup] at ih
                simp at ih
                simp
                omega
            | true =>
                rw [hup] at ih
                simp at ih
                simp [ih]
  refine ⟨?_, hinv, ?_, ?_⟩
  · rw [hinv]
    split <;> omega
  · intro hup
    exact CaptureStep.invokeBusy s hup
  · intro hup
    have h1 : s.inFlight = 1 := by rw [hinv, if_pos hup]
    have hstep := CaptureStep.complete s true (by omega)
    simpa [h1] using hstep

/-- Witness for C10: the theorem applied to the state reached by one
idle-state invocation. -/
theorem captureReachable_single_flight_witness :
    ({ isUploading := true, inFlight := 1 } : UploaderState).inFlight ≤ 1 :=
  (captureReachable_single_flight { isUploading := true, inFlight := 1 }
    (CaptureReachable.step CaptureReachable.init
      (CaptureStep.invokeIdle { isUploading := false, inFlight := 0 } rfl))).1
